import Mathlib

/-!
Verification of the download-orchestration core of `chrome-tester`.

The frontend task store (`src/src/stores` download store) is embedded as pure
functions over an explicit state; the Node worker script
(`scripts/download-browser.js`) is embedded as a trace function describing the
lines it writes and the channel (stdout/stderr) each line goes to.  JS numbers
are modelled as rationals (`ℚ`), JS `find`/mutate on the task array as an
update of the first matching list element.
-/

namespace ChromeTester

/-- Status values of a `DownloadTask`, from the frontend type declarations. -/
inductive DownloadStatus
  | Pending
  | Downloading
  | Completed
  | Failed
  | Retrying
  deriving DecidableEq, Repr

/-- The `DownloadTask` record from the frontend type declarations (the immutable
`browser_info` descriptor is kept as the raw version/platform strings;
none of its other fields is ever read or written by the store actions). -/
structure DownloadTask where
  id : String
  browser_type : String
  version : String
  platform : String
  status : DownloadStatus
  progress : ℚ
  downloaded_bytes : ℚ
  total_bytes : ℚ
  estimated_time_remaining : Option ℚ
  error_message : Option String
  retry_count : ℕ
  deriving DecidableEq, Repr

/-- The download store's own state (`downloadTasks`, `isLoading`, `error`). -/
structure DownloadState where
  downloadTasks : List DownloadTask
  isLoading : Bool
  error : Option String
  deriving DecidableEq, Repr

/-- The JS idiom `const task = state.downloadTasks.find(t => t.id === taskId);
if (task) { mutate task }` updates the first element matching the predicate
and leaves every other element alone. -/
def updateFirst (p : α → Bool) (f : α → α) : List α → List α
  | [] => []
  | x :: xs => if p x then f x :: xs else x :: updateFirst p f xs

/-- JS `state.downloadTasks.find(t => t.id === taskId)`. -/
def findTask (s : DownloadState) (taskId : String) : Option DownloadTask :=
  s.downloadTasks.find? (fun t => t.id = taskId)

/-- The mutation `updateTaskProgress` performs on the found task
(part_008 lines 127-154): skip if all three values already match, otherwise
write progress / downloaded_bytes / total_bytes, force status to
`Downloading`, and recompute the advisory ETA when `progress > 0` and
`downloadedBytes > 0`. -/
def applyProgress (progress downloadedBytes totalBytes : ℚ)
    (t : DownloadTask) : DownloadTask :=
  if t.progress = progress ∧ t.downloaded_bytes = downloadedBytes ∧
      t.total_bytes = totalBytes then
    t
  else
    let t1 := { t with
      progress := progress
      downloaded_bytes := downloadedBytes
      total_bytes := totalBytes
      status := DownloadStatus.Downloading }
    if 0 < progress ∧ 0 < downloadedBytes then
      let remainingBytes := totalBytes - downloadedBytes
      let bytesPerSecond := downloadedBytes / (progress * 100)
      { t1 with estimated_time_remaining := some (remainingBytes / bytesPerSecond) }
    else
      t1

/-- Action `updateTaskProgress(taskId, progress, downloadedBytes, totalBytes)`:
mutate the first task with this id; warn and change nothing when absent. -/
def updateTaskProgress (s : DownloadState) (taskId : String)
    (progress downloadedBytes totalBytes : ℚ) : DownloadState :=
  { s with downloadTasks :=
      (updateFirst (fun t => t.id = taskId)
        (applyProgress progress downloadedBytes totalBytes) s.downloadTasks) }

/-- The mutation `updateTaskStatus` performs on the found task
(part_008 lines 156-179): return unchanged if the status is already `status`;
otherwise write the status, copy the error message when one is supplied
(JS truthiness: the empty string does not count), and on `Completed`
force progress to 1.0. -/
def applyStatus (status : DownloadStatus) (error : Option String)
    (t : DownloadTask) : DownloadTask :=
  if t.status = status then
    t
  else
    let t1 := { t with status := status }
    let t2 := match error with
      | some e => if e = "" then t1 else { t1 with error_message := some e }
      | none => t1
    if status = DownloadStatus.Completed then
      { t2 with progress := 1 }
    else
      t2

/-- Action `updateTaskStatus(taskId, status, error?)`. -/
def updateTaskStatus (s : DownloadState) (taskId : String)
    (status : DownloadStatus) (error : Option String) : DownloadState :=
  { s with downloadTasks :=
      (updateFirst (fun t => t.id = taskId)
        (applyStatus status error) s.downloadTasks) }

/-- The fresh task pushed by `startDownload` once the backend `invoke` has
returned a task id (part_008 lines 49-76): status `Pending`, progress 0,
zero byte counters, no error, no retries. -/
def newTask (taskId browserType version platform : String) : DownloadTask :=
  { id := taskId
    browser_type := browserType
    version := version
    platform := platform
    status := DownloadStatus.Pending
    progress := 0
    downloaded_bytes := 0
    total_bytes := 0
    estimated_time_remaining := none
    error_message := none
    retry_count := 0 }

/-- Action `startDownload(browserType, version, platform?)`: the backend call
`invoke('download_browser', ...)` is passed in as its result.  On success the
new task is appended; on failure only the store error is set.  Either way
`isLoading` ends up false (it is set true before the call and cleared in both
branches). -/
def startDownload (s : DownloadState) (browserType version platform : String)
    (backendResult : Except String String) : DownloadState :=
  match backendResult with
  | Except.ok taskId =>
      { s with
        isLoading := false
        error := none
        downloadTasks :=
          (s.downloadTasks ++ [newTask taskId browserType version platform]) }
  | Except.error msg =>
      { s with isLoading := false, error := some msg }

/-- Action `retryDownload(taskId)` (part_008 lines 88-111): first `set` clears the
store error and flips the found task's status to `Retrying` (whatever its
current status); then `invoke('retry_download')` runs; on failure a second
`set` records the error and flips the found task's status to `Failed`. -/
def retryDownload (s : DownloadState) (taskId : String)
    (backendResult : Except String Unit) : DownloadState :=
  let s1 : DownloadState :=
    { s with
      error := none
      downloadTasks :=
        (updateFirst (fun t => t.id = taskId)
          (fun t => { t with status := DownloadStatus.Retrying })
          s.downloadTasks) }
  match backendResult with
  | Except.ok _ => s1
  | Except.error msg =>
      { s1 with
        error := some msg
        downloadTasks :=
          (updateFirst (fun t => t.id = taskId)
            (fun t => { t with status := DownloadStatus.Failed })
            s1.downloadTasks) }

/-- Action `removeDownloadTask(taskId)` (part_008 lines 113-125): on backend success
the task is filtered out of the list; on backend failure only the store error
is set and the list is untouched. -/
def removeDownloadTask (s : DownloadState) (taskId : String)
    (backendResult : Except String Unit) : DownloadState :=
  match backendResult with
  | Except.ok _ =>
      { s with downloadTasks :=
          (s.downloadTasks.filter (fun t => ¬ t.id = taskId)) }
  | Except.error msg =>
      { s with error := some msg }

/-- One store operation, with the result of any backend `invoke` it performs
supplied as data (the store itself never inspects more than success/failure
and, for `start`, the returned id). -/
inductive StoreOp
  | start (browserType version platform : String) (backendResult : Except String String)
  | progress (taskId : String) (p d tb : ℚ)
  | status (taskId : String) (st : DownloadStatus) (err : Option String)
  | retry (taskId : String) (backendResult : Except String Unit)
  | remove (taskId : String) (backendResult : Except String Unit)

/-- Apply one store operation. -/
def applyOp (s : DownloadState) : StoreOp → DownloadState
  | StoreOp.start bt v pl r => startDownload s bt v pl r
  | StoreOp.progress tid p d tb => updateTaskProgress s tid p d tb
  | StoreOp.status tid st err => updateTaskStatus s tid st err
  | StoreOp.retry tid r => retryDownload s tid r
  | StoreOp.remove tid r => removeDownloadTask s tid r

/-! ### The worker script `scripts/download-browser.js`

The script writes its line protocol with `console.log` (stdout) and
`console.error` (stderr).  We embed the lines it emits, in order, each paired
with its channel, as a function of the run's outcome data: whether
`resolveBuildId` succeeded (and with what build id), the byte counters passed
to each `downloadProgressCallback` invocation, and whether `install` returned
an executable path or threw (message, stack). -/

/-- Output channel of one `console` call. -/
inductive Channel
  | stdout
  | stderr
  deriving DecidableEq, Repr

/-- One record of the worker line protocol.  A `progress` record's JSON
payload carries the computed ratio and both byte counters
(`estimated_time_remaining` is always `null` in the script). -/
inductive Line
  | info (msg : String)
  | progress (p d tb : ℚ)
  | completed (path : String)
  | executable (path : String)
  | version (buildId : String)
  | error (msg : String)
  | dbg (msg : String)
  deriving DecidableEq, Repr

/-- Command-line configuration of the worker after validation
(`--browser --version --platform`, plus the derived cache directory). -/
structure WorkerConfig where
  browser : String
  version : String
  platform : String
  cacheDir : String
  deriving DecidableEq, Repr

/-- Outcome data of one worker run: `resolve` is `some b` when
`resolveBuildId` returned `b` and `none` when it threw; `callbacks` lists the
`(downloadedBytes, totalBytes)` arguments of each progress callback call;
`result` is the executable path from `install` or the thrown
(message, stack). -/
structure WorkerScenario where
  resolve : Option String
  callbacks : List (ℚ × ℚ)
  result : Except (String × String) String
  deriving Repr

/-- JS `part.includes(buildId)`: substring containment. -/
def strIncludes (s sub : String) : Bool :=
  (List.range (s.length + 1)).any (fun i => sub.isPrefixOf (s.drop i))

/-- Lines 91-100 of the script: `buildId` is the resolved id, or the raw
version string when resolution threw. -/
def effectiveBuildId (version : String) (resolve : Option String) : String :=
  match resolve with
  | some b => b
  | none => version

/-- Lines 121-145 of the script: derive the install directory from the
executable path by locating the path component containing the build id
(fallback: the parent of the `chrome-mac*` component), or `""`. -/
def deriveInstallDir (buildId executablePath : String) : String :=
  if executablePath = "" then ""
  else
    let parts := executablePath.splitOn "/"
    match parts.findIdx? (fun part => strIncludes part buildId) with
    | some versionDirIndex =>
        String.intercalate "/" (parts.take (versionDirIndex + 1))
    | none =>
        match parts.findIdx? (fun part => part.startsWith "chrome-mac") with
        | some chromeDirIndex => String.intercalate "/" (parts.take chromeDirIndex)
        | none => ""

/-- Line 148: `installDir || executablePath || String(installPath)` (the last
fallback stringifies the result object). -/
def finalInstallPath (buildId executablePath : String) : String :=
  let installDir := deriveInstallDir buildId executablePath
  if ¬ installDir = "" then installDir
  else if ¬ executablePath = "" then executablePath
  else "[object Object]"

/-- The full ordered output of `downloadBrowser()` (script lines 80-161),
with the channel of each line: `console.log` → stdout, `console.error` →
stderr.  `resolveBuildId` failure is caught locally (line 97) and never takes
the outer catch; the outer catch (lines 156-159) prints `ERROR:` and `DEBUG:`
with `console.error`. -/
def downloadBrowserTrace (cfg : WorkerConfig) (sc : WorkerScenario) :
    List (Channel × Line) :=
  let buildId := effectiveBuildId cfg.version sc.resolve
  let resolveLine : Line :=
    match sc.resolve with
    | some b =>
        Line.info ("Resolved version " ++ cfg.version ++ " to build ID: " ++ b)
    | none =>
        Line.info ("Could not resolve version " ++ cfg.version ++
          ", using as build ID directly")
  let progressLines : List (Channel × Line) :=
    sc.callbacks.map (fun c =>
      (Channel.stdout, Line.progress (c.1 / c.2) c.1 c.2))
  [(Channel.stdout, Line.info ("Starting download - " ++ cfg.browser ++ " " ++
      cfg.version ++ " for " ++ cfg.platform)),
   (Channel.stdout, Line.info ("Cache directory: " ++ cfg.cacheDir)),
   (Channel.stdout, resolveLine)] ++
  progressLines ++
  match sc.result with
  | Except.ok executablePath =>
      [(Channel.stdout, Line.completed (finalInstallPath buildId executablePath)),
       (Channel.stdout, Line.executable executablePath),
       (Channel.stdout, Line.version buildId),
       (Channel.stdout, Line.info ("Browser installed successfully at: " ++
          finalInstallPath buildId executablePath))]
  | Except.error e =>
      [(Channel.stderr, Line.error e.1),
       (Channel.stderr, Line.dbg e.2)]

/-- The channel each kind of record is written to in the scripts:
`ERROR` and `DEBUG` go through `console.error`, everything else through
`console.log`. -/
def lineChannel : Line → Channel
  | Line.error _ => Channel.stderr
  | Line.dbg _ => Channel.stderr
  | _ => Channel.stdout

/-- The store's initial state. -/
def initialState : DownloadState :=
  { downloadTasks := [], isLoading := false, error := none }

/-- Run a sequence of store operations from the initial state. -/
def runOps (ops : List StoreOp) : DownloadState :=
  ops.foldl applyOp initialState

/-! ### Spec-modelled backend pieces

The Rust/Tauri backend (Task Registry commands, Worker Supervisor,
Concurrency Limiter) is not part of the available sources; only its callers
(`invoke(...)` sites) are.  The definitions below are modelled from the
spec's words and are clearly marked as such. -/

/-- Modelled from the spec: "Registry-level contract violations (`NotFound`,
`InvalidState`) are returned to the caller as typed failures". -/
inductive RegistryError
  | NotFound
  | InvalidState
  deriving DecidableEq, Repr

/-- Message string carried back through the frontend's `Error` rethrow. -/
def registryErrorMessage : RegistryError → String
  | RegistryError.NotFound => "NotFound"
  | RegistryError.InvalidState => "InvalidState"

/-- Modelled from the spec: the backend `remove_download_task` command
(`remove(taskId) -> ()` — cancels if active, then deletes; fails with
`NotFound` if unknown), over the registry's known task ids. -/
def backendRemove (registryIds : List String) (taskId : String) :
    Except RegistryError Unit :=
  if taskId ∈ registryIds then Except.ok () else Except.error RegistryError.NotFound

/-- The full `remove` operation: the registry mirrors the store's task list;
the backend result drives `removeDownloadTask` and is also returned (the
store rethrows backend failures to the caller). -/
def removeTask (s : DownloadState) (taskId : String) :
    Except RegistryError Unit × DownloadState :=
  match backendRemove (s.downloadTasks.map (fun t => t.id)) taskId with
  | Except.ok _ => (Except.ok (), removeDownloadTask s taskId (Except.ok ()))
  | Except.error e =>
      (Except.error e,
        removeDownloadTask s taskId (Except.error (registryErrorMessage e)))

/-- Modelled from the spec: the Worker Supervisor's per-id admission state —
the set of task ids that currently own a live worker process.  "The
Supervisor guarantees the per-task mutual-exclusion invariant by holding an
exclusive handle to its task id for its whole lifetime; a second start
request for a task already supervised is rejected, not queued twice." -/
structure SupervisorState where
  active : List String
  deriving DecidableEq, Repr

/-- Modelled from the spec: one atomic step of the supervision layer — a
start request, a retry re-admission, or a worker process concluding
(success, failure, or cancellation). -/
inductive SupervisorOp
  | start (id : String)
  | retry (id : String)
  | conclude (id : String)

/-- Modelled from the spec: start and retry spawn a worker only when no
worker is live for that id (a second request for a supervised id is
rejected); a concluding worker releases its id. -/
def supervisorStep (s : SupervisorState) : SupervisorOp → SupervisorState
  | SupervisorOp.start id =>
      if id ∈ s.active then s else { active := id :: s.active }
  | SupervisorOp.retry id =>
      if id ∈ s.active then s else { active := id :: s.active }
  | SupervisorOp.conclude id => { active := s.active.erase id }

/-- Run an arbitrary interleaving of supervision steps from no live
workers. -/
def supervisorRun (ops : List SupervisorOp) : SupervisorState :=
  ops.foldl supervisorStep { active := [] }

/-! ### Invariant predicates and sample data -/

/-- The byte counters an operation carries are consistent: for a progress
event, `downloaded_bytes ≤ total_bytes` whenever `total_bytes > 0`.  The
store never validates this itself; it is a property of the event source. -/
def opRespectsBytes : StoreOp → Prop
  | StoreOp.progress _ _ d tb => 0 < tb → d ≤ tb
  | _ => True

/-- Spec §3 / §8: `downloaded_bytes ≤ total_bytes` whenever
`total_bytes > 0`, for every task in the store. -/
def bytesInvariant (s : DownloadState) : Prop :=
  ∀ t ∈ s.downloadTasks, 0 < t.total_bytes → t.downloaded_bytes ≤ t.total_bytes

/-- A freshly created sample task. -/
def sampleTask : DownloadTask := newTask "a" "Chrome" "120.0.6099.109" "win64"

/-- A store holding just the fresh sample task. -/
def sampleState : DownloadState :=
  { downloadTasks := [sampleTask], isLoading := false, error := none }

/-- The sample task mid-download at 50%. -/
def downloadingTask : DownloadTask :=
  { sampleTask with
    status := DownloadStatus.Downloading
    progress := mkRat 1 2
    downloaded_bytes := 500
    total_bytes := 1000 }

/-- A store holding the mid-download task. -/
def downloadingState : DownloadState :=
  { downloadTasks := [downloadingTask], isLoading := false, error := none }

/-- The sample task after a failure, with an error message and two retries
already counted. -/
def failedTask : DownloadTask :=
  { sampleTask with
    status := DownloadStatus.Failed
    error_message := some "boom"
    retry_count := 2 }

/-- A store holding the failed task. -/
def failedState : DownloadState :=
  { downloadTasks := [failedTask], isLoading := false, error := none }

/-- A sample worker configuration. -/
def sampleConfig : WorkerConfig :=
  { browser := "chrome"
    version := "120.0.6099.109"
    platform := "win64"
    cacheDir := "/home/u/.local/share/chrome-tester/browsers" }

/-- A worker run that resolves its version and then fails inside
`install`. -/
def failingScenario : WorkerScenario :=
  { resolve := some "120.0.6099.109"
    callbacks := []
    result := Except.error ("network timeout", "stack") }

/-- A worker run that resolves and installs successfully with one progress
callback. -/
def okScenario : WorkerScenario :=
  { resolve := some "120.0.6099.109"
    callbacks := [(500, 1000)]
    result := Except.ok "/opt/browsers/chrome/win64-120.0.6099.109/chrome.exe" }

/-! ### Helper lemmas -/

theorem updateFirst_eq_self (p : α → Bool) (f : α → α) :
    ∀ l : List α, (∀ x, l.find? p = some x → f x = x) → updateFirst p f l = l := by
  intro l
  induction l with
  | nil => intro _; rfl
  | cons x xs ih =>
    intro h
    by_cases hx : p x = true
    · have hfx : f x = x := h x (by rw [List.find?_cons_of_pos _ hx])
      simp [updateFirst, hx, hfx]
    · have hx' : ¬ p x := by simpa using hx
      simp only [updateFirst, if_neg hx', List.cons.injEq, true_and]
      exact ih (fun y hy => h y (by rw [List.find?_cons_of_neg _ hx', hy]))

theorem find?_updateFirst (p : α → Bool) (f : α → α)
    (hf : ∀ x, p x = true → p (f x) = true) :
    ∀ l : List α, (updateFirst p f l).find? p = (l.find? p).map f := by
  intro l
  induction l with
  | nil => rfl
  | cons x xs ih =>
    by_cases hx : p x = true
    · simp only [updateFirst, if_pos hx, List.find?_cons_of_pos _ hx,
        List.find?_cons_of_pos _ (hf x hx), Option.map_some']
    · have hx' : ¬ p x := by simpa using hx
      simp only [updateFirst, if_neg hx', List.find?_cons_of_neg _ hx', ih]

theorem mem_updateFirst (p : α → Bool) (f : α → α) :
    ∀ l : List α, ∀ y ∈ updateFirst p f l, y ∈ l ∨ ∃ x ∈ l, y = f x := by
  intro l
  induction l with
  | nil => intro y hy; cases hy
  | cons x xs ih =>
    intro y hy
    by_cases hx : p x = true
    · simp only [updateFirst, if_pos hx, List.mem_cons] at hy
      rcases hy with hy | hy
      · exact Or.inr ⟨x, List.mem_cons_self x xs, hy⟩
      · exact Or.inl (List.mem_cons_of_mem x hy)
    · have hx' : ¬ p x := by simpa using hx
      simp only [updateFirst, if_neg hx', List.mem_cons] at hy
      rcases hy with hy | hy
      · exact Or.inl (by simp [hy])
      · rcases ih y hy with h | ⟨z, hz, hzy⟩
        · exact Or.inl (List.mem_cons_of_mem x h)
        · exact Or.inr ⟨z, List.mem_cons_of_mem x hz, hzy⟩

theorem applyProgress_id_eq (p d tb : ℚ) (t : DownloadTask) :
    (applyProgress p d tb t).id = t.id := by
  unfold applyProgress
  split
  · rfl
  · dsimp only
    split <;> rfl

theorem applyStatus_id_eq (st : DownloadStatus) (err : Option String)
    (t : DownloadTask) : (applyStatus st err t).id = t.id := by
  unfold applyStatus
  split
  · rfl
  · dsimp only
    rcases err with _ | e
    · split <;> rfl
    · dsimp only
      split <;> split <;> rfl

theorem applyProgress_fields (p d tb : ℚ) (t : DownloadTask) :
    (applyProgress p d tb t).progress = p ∧
    (applyProgress p d tb t).downloaded_bytes = d ∧
    (applyProgress p d tb t).total_bytes = tb := by
  unfold applyProgress
  split
  case isTrue h => exact h
  case isFalse h =>
    dsimp only
    split <;> exact ⟨rfl, rfl, rfl⟩

theorem applyStatus_bytes (st : DownloadStatus) (err : Option String)
    (t : DownloadTask) :
    (applyStatus st err t).downloaded_bytes = t.downloaded_bytes ∧
    (applyStatus st err t).total_bytes = t.total_bytes := by
  unfold applyStatus
  split
  · exact ⟨rfl, rfl⟩
  · dsimp only
    rcases err with _ | e
    · split <;> exact ⟨rfl, rfl⟩
    · dsimp only
      split <;> split <;> exact ⟨rfl, rfl⟩

theorem applyStatus_self (st : DownloadStatus) (err : Option String)
    (t : DownloadTask) (h : t.status = st) : applyStatus st err t = t := by
  unfold applyStatus
  rw [if_pos h]

theorem applyStatus_completed_fields (err : Option String) (t : DownloadTask)
    (h : ¬ t.status = DownloadStatus.Completed) :
    (applyStatus DownloadStatus.Completed err t).status = DownloadStatus.Completed ∧
    (applyStatus DownloadStatus.Completed err t).progress = 1 := by
  unfold applyStatus
  rw [if_neg h]
  rcases err with _ | e
  · simp
  · by_cases he : e = "" <;> simp [he]

theorem find?_update_id (taskId : String) (f : DownloadTask → DownloadTask)
    (hf : ∀ t, (f t).id = t.id) (l : List DownloadTask) :
    (updateFirst (fun t => t.id = taskId) f l).find? (fun t => t.id = taskId) =
      (l.find? (fun t => t.id = taskId)).map f := by
  apply find?_updateFirst
  intro x hx
  simp only [decide_eq_true_eq] at hx ⊢
  rw [hf, hx]

theorem findTask_updateTaskProgress (s : DownloadState) (taskId : String)
    (p d tb : ℚ) :
    findTask (updateTaskProgress s taskId p d tb) taskId =
      (findTask s taskId).map (applyProgress p d tb) := by
  unfold findTask updateTaskProgress
  exact find?_update_id taskId _ (applyProgress_id_eq p d tb) s.downloadTasks

theorem findTask_updateTaskStatus (s : DownloadState) (taskId : String)
    (st : DownloadStatus) (err : Option String) :
    findTask (updateTaskStatus s taskId st err) taskId =
      (findTask s taskId).map (applyStatus st err) := by
  unfold findTask updateTaskStatus
  exact find?_update_id taskId _ (applyStatus_id_eq st err) s.downloadTasks

theorem findTask_retryDownload_ok (s : DownloadState) (taskId : String) :
    findTask (retryDownload s taskId (Except.ok ())) taskId =
      (findTask s taskId).map
        (fun t => { t with status := DownloadStatus.Retrying }) := by
  unfold findTask retryDownload
  dsimp only
  exact find?_update_id taskId
    (fun t => { t with status := DownloadStatus.Retrying })
    (fun _ => rfl) s.downloadTasks

/-! ### The claims -/

/-- Claim C1: applying a progress event carrying progress `p`, downloaded
bytes `d` and total bytes `tb` (as emitted by the worker's `PROGRESS` line)
to a task that exists in the task list sets that task's `progress` to `p`,
`downloaded_bytes` to `d` and `total_bytes` to `tb`. -/
theorem progress_event_sets_fields (s : DownloadState) (taskId : String)
    (p d tb : ℚ) (t : DownloadTask) (h : findTask s taskId = some t) :
    ∃ t', findTask (updateTaskProgress s taskId p d tb) taskId = some t' ∧
      t'.progress = p ∧ t'.downloaded_bytes = d ∧ t'.total_bytes = tb := by
  refine ⟨applyProgress p d tb t, ?_, applyProgress_fields p d tb t⟩
  rw [findTask_updateTaskProgress, h, Option.map_some']

/-- Claim C1 witness: the spec's example event (`progress=0.5`,
`downloaded_bytes=500`, `total_bytes=1000`) on the fresh sample task. -/
theorem progress_event_sets_fields_witness :
    ∃ t', findTask (updateTaskProgress sampleState "a" (mkRat 1 2) 500 1000) "a"
        = some t' ∧
      t'.progress = mkRat 1 2 ∧ t'.downloaded_bytes = 500 ∧
      t'.total_bytes = 1000 :=
  progress_event_sets_fields sampleState "a" (mkRat 1 2) 500 1000 sampleTask
    (by decide)

/-- Claim C2 counterexample: on a `Failed` task with `retry_count = 2` and
error message `"boom"`, a successful retry request produces status
`Retrying` but leaves `retry_count` at 2 (not 3) and the error message in
place (not cleared), contradicting the claim. -/
theorem retry_keeps_count_and_message :
    failedTask.status = DownloadStatus.Failed ∧
    ((findTask (retryDownload failedState "a" (Except.ok ())) "a").map
      (fun t => (t.status, t.retry_count, t.error_message))) =
      some (DownloadStatus.Retrying, 2, some "boom") ∧
    ¬ (((findTask (retryDownload failedState "a" (Except.ok ())) "a").map
      (fun t => (t.retry_count, t.error_message))) = some (3, none)) := by
  decide

/-- Claim C2 (amended): a retry request whose backend call succeeds sets the
task's status to `Retrying`; the task-store code leaves `retry_count` and
`error_message` unchanged (the increment and the clearing the spec
describes are delegated to the backend and not performed here). -/
theorem retry_sets_retrying (s : DownloadState) (taskId : String)
    (t : DownloadTask) (h : findTask s taskId = some t) :
    ∃ t', findTask (retryDownload s taskId (Except.ok ())) taskId = some t' ∧
      t'.status = DownloadStatus.Retrying ∧
      t'.retry_count = t.retry_count ∧
      t'.error_message = t.error_message := by
  refine ⟨{ t with status := DownloadStatus.Retrying }, ?_, rfl, rfl, rfl⟩
  rw [findTask_retryDownload_ok, h, Option.map_some']

/-- Claim C2 witness: the amended statement at the concrete failed task. -/
theorem retry_sets_retrying_witness :
    ∃ t', findTask (retryDownload failedState "a" (Except.ok ())) "a" = some t' ∧
      t'.status = DownloadStatus.Retrying ∧
      t'.retry_count = failedTask.retry_count ∧
      t'.error_message = failedTask.error_message :=
  retry_sets_retrying failedState "a" failedTask (by decide)

/-- Claim C3 counterexample: a `Downloading` task at progress 1/2 receives a
progress event carrying 1/4, and its progress drops to 1/4 < 1/2 — an
operation on a `Downloading` task can lower its progress. -/
theorem progress_can_decrease :
    downloadingTask.status = DownloadStatus.Downloading ∧
    downloadingTask.progress = mkRat 1 2 ∧
    ((findTask (updateTaskProgress downloadingState "a" (mkRat 1 4) 250 1000)
      "a").map DownloadTask.progress) = some (mkRat 1 4) ∧
    mkRat 1 4 < mkRat 1 2 := by
  decide

/-- Claim C3 (amended): `updateTaskProgress` writes exactly the supplied
progress value, so a task's progress never decreases provided each supplied
value is at least the task's current progress; the store itself enforces no
monotonicity. -/
theorem progress_nondecreasing_of_le (s : DownloadState) (taskId : String)
    (p d tb : ℚ) (t : DownloadTask) (h : findTask s taskId = some t)
    (hp : t.progress ≤ p) :
    ∃ t', findTask (updateTaskProgress s taskId p d tb) taskId = some t' ∧
      t.progress ≤ t'.progress := by
  refine ⟨applyProgress p d tb t, ?_, ?_⟩
  · rw [findTask_updateTaskProgress, h, Option.map_some']
  · rw [(applyProgress_fields p d tb t).1]
    exact hp

/-- Claim C3 witness: a non-decreasing event (1/2 → 3/4) on the mid-download
task. -/
theorem progress_nondecreasing_of_le_witness :
    ∃ t', findTask (updateTaskProgress downloadingState "a" (mkRat 3 4) 750 1000)
        "a" = some t' ∧
      downloadingTask.progress ≤ t'.progress :=
  progress_nondecreasing_of_le downloadingState "a" (mkRat 3 4) 750 1000
    downloadingTask (by decide) (by decide)

/-- Claim C4 counterexample: a single progress event carrying
`downloaded_bytes = 2000 > total_bytes = 1000` reaches a state with
`total_bytes > 0` and `downloaded_bytes > total_bytes`; the store applies
the counters unvalidated. -/
theorem bytes_bound_violated :
    ∃ t ∈ (runOps
      [StoreOp.start "Chrome" "120.0.6099.109" "win64" (Except.ok "a"),
       StoreOp.progress "a" 2 2000 1000]).downloadTasks,
      0 < t.total_bytes ∧ t.total_bytes < t.downloaded_bytes := by
  decide

theorem applyOp_preserves_bytes (s : DownloadState) (op : StoreOp)
    (hs : bytesInvariant s) (hop : opRespectsBytes op) :
    bytesInvariant (applyOp s op) := by
  cases op with
  | start bt v pl r =>
    cases r with
    | ok tid =>
      intro t ht
      simp only [applyOp, startDownload, List.mem_append,
        List.mem_singleton] at ht
      rcases ht with ht | rfl
      · exact hs t ht
      · intro h0
        exact absurd h0 (by simp [newTask])
    | error m => exact fun t ht => hs t ht
  | progress tid p d tb =>
    intro t ht
    simp only [applyOp, updateTaskProgress] at ht
    rcases mem_updateFirst _ _ _ t ht with hmem | ⟨x, hx, rfl⟩
    · exact hs t hmem
    · obtain ⟨_, hd, htb⟩ := applyProgress_fields p d tb x
      rw [hd, htb]
      exact hop
  | status tid st err =>
    intro t ht
    simp only [applyOp, updateTaskStatus] at ht
    rcases mem_updateFirst _ _ _ t ht with hmem | ⟨x, hx, rfl⟩
    · exact hs t hmem
    · obtain ⟨hd, htb⟩ := applyStatus_bytes st err x
      rw [hd, htb]
      exact hs x hx
  | retry tid r =>
    cases r with
    | ok _ =>
      intro t ht
      simp only [applyOp, retryDownload] at ht
      rcases mem_updateFirst _ _ _ t ht with hmem | ⟨x, hx, rfl⟩
      · exact hs t hmem
      · exact hs x hx
    | error m =>
      intro t ht
      simp only [applyOp, retryDownload] at ht
      rcases mem_updateFirst _ _ _ t ht with hmem | ⟨x, hx, rfl⟩
      · rcases mem_updateFirst _ _ _ t hmem with hmem2 | ⟨y, hy, rfl⟩
        · exact hs t hmem2
        · exact hs y hy
      · rcases mem_updateFirst _ _ _ x hx with hmem2 | ⟨y, hy, rfl⟩
        · exact hs x hmem2
        · exact hs y hy
  | remove tid r =>
    cases r with
    | ok _ =>
      intro t ht
      simp only [applyOp, removeDownloadTask] at ht
      exact hs t (List.mem_of_mem_filter ht)
    | error m => exact fun t ht => hs t ht

theorem foldl_preserves_bytes (ops : List StoreOp) :
    ∀ s : DownloadState, bytesInvariant s →
      (∀ op ∈ ops, opRespectsBytes op) →
      bytesInvariant (ops.foldl applyOp s) := by
  induction ops with
  | nil => exact fun s hs _ => hs
  | cons op ops ih =>
    intro s hs h
    exact ih _ (applyOp_preserves_bytes s op hs (h op (List.mem_cons_self op ops)))
      (fun o ho => h o (List.mem_cons_of_mem op ho))

/-- Claim C4 (amended): in every state reachable by the task-store operations
(start, progress update, status update, retry, remove), every task with
`total_bytes > 0` satisfies `downloaded_bytes ≤ total_bytes`, provided
every progress event's counters already satisfy that bound — the store
applies the counters without validating them, so the bound is inherited
from the event source, not enforced. -/
theorem bytes_bound_reachable (ops : List StoreOp)
    (h : ∀ op ∈ ops, opRespectsBytes op) : bytesInvariant (runOps ops) :=
  foldl_preserves_bytes ops initialState
    (fun t ht => absurd ht (List.not_mem_nil t)) h

/-- Claim C4 witness: a start followed by a well-formed progress event. -/
theorem bytes_bound_reachable_witness :
    bytesInvariant (runOps
      [StoreOp.start "Chrome" "120.0.6099.109" "win64" (Except.ok "a"),
       StoreOp.progress "a" (mkRat 1 2) 500 1000]) :=
  bytes_bound_reachable _ (by
    intro op hop
    rcases List.mem_cons.1 hop with rfl | hop
    · trivial
    · rcases List.mem_cons.1 hop with rfl | hop
      · intro _
        decide
      · exact absurd hop (List.not_mem_nil op))

/-- Claim C5: a `Completed` terminal event applied to a `Downloading` task
sets that task's status to `Completed` and its progress to 1.0. -/
theorem completed_event_sets_status (s : DownloadState) (taskId : String)
    (err : Option String) (t : DownloadTask)
    (h : findTask s taskId = some t)
    (hd : t.status = DownloadStatus.Downloading) :
    ∃ t', findTask (updateTaskStatus s taskId DownloadStatus.Completed err)
        taskId = some t' ∧
      t'.status = DownloadStatus.Completed ∧ t'.progress = 1 := by
  have hne : ¬ t.status = DownloadStatus.Completed := by
    rw [hd]
    intro hc
    cases hc
  refine ⟨applyStatus DownloadStatus.Completed err t, ?_,
    applyStatus_completed_fields err t hne⟩
  rw [findTask_updateTaskStatus, h, Option.map_some']

/-- Claim C5 witness: the spec's example, `COMPLETED:/opt/browsers/chrome-120`
on the mid-download task. -/
theorem completed_event_sets_status_witness :
    ∃ t', findTask (updateTaskStatus downloadingState "a"
        DownloadStatus.Completed none) "a" = some t' ∧
      t'.status = DownloadStatus.Completed ∧ t'.progress = 1 :=
  completed_event_sets_status downloadingState "a" none downloadingTask
    (by decide) (by decide)

/-- Claim C10: `updateTaskStatus` with a status equal to the task's current
status leaves the whole store unchanged — in particular a repeated `Failed`
event carrying a different message does not update `error_message`. -/
theorem status_update_idempotent (s : DownloadState) (taskId : String)
    (st : DownloadStatus) (err : Option String) (t : DownloadTask)
    (h : findTask s taskId = some t) (hst : t.status = st) :
    updateTaskStatus s taskId st err = s := by
  unfold updateTaskStatus
  have heq : updateFirst (fun t => t.id = taskId) (applyStatus st err)
      s.downloadTasks = s.downloadTasks := by
    apply updateFirst_eq_self
    intro x hx
    unfold findTask at h
    rw [h] at hx
    injection hx with hx
    subst hx
    exact applyStatus_self st err t hst
  rw [heq]

/-- Claim C10 witness: a repeated `Failed` event with a different message on
the failed task changes nothing. -/
theorem status_update_idempotent_witness :
    updateTaskStatus failedState "a" DownloadStatus.Failed
      (some "different message") = failedState :=
  status_update_idempotent failedState "a" DownloadStatus.Failed
    (some "different message") failedTask (by decide) (by decide)

/-- Claim C6 counterexample: a failing run emits its `ERROR` record through
`console.error`, i.e. on stderr — not on stdout as the claim states. -/
theorem error_record_on_stderr :
    (Channel.stderr, Line.error "network timeout") ∈
      downloadBrowserTrace sampleConfig failingScenario ∧
    ¬ Channel.stderr = Channel.stdout := by
  decide

/-- Claim C6 (amended): the worker writes `INFO`, `PROGRESS`, `COMPLETED`,
`EXECUTABLE` and `VERSION` records on stdout, but `ERROR` and `DEBUG`
records go through `console.error`, i.e. on stderr; every record is on the
channel `lineChannel` assigns its kind. -/
theorem worker_channel_discipline (cfg : WorkerConfig) (sc : WorkerScenario) :
    ∀ cl ∈ downloadBrowserTrace cfg sc, cl.1 = lineChannel cl.2 := by
  obtain ⟨resolve, callbacks, result⟩ := sc
  intro cl hcl
  rcases result with e | execPath <;> rcases resolve with _ | b <;>
    simp only [downloadBrowserTrace, List.mem_append, List.mem_cons,
      List.mem_map, List.not_mem_nil, or_false] at hcl
  · rcases hcl with ((rfl | rfl | rfl) | ⟨c, hc, rfl⟩) | (rfl | rfl) <;> rfl
  · rcases hcl with ((rfl | rfl | rfl) | ⟨c, hc, rfl⟩) | (rfl | rfl) <;> rfl
  · rcases hcl with ((rfl | rfl | rfl) | ⟨c, hc, rfl⟩) | (rfl | rfl | rfl | rfl) <;>
      rfl
  · rcases hcl with ((rfl | rfl | rfl) | ⟨c, hc, rfl⟩) | (rfl | rfl | rfl | rfl) <;>
      rfl

/-- Claim C6 witness: the failing run's `ERROR` record sits on the channel
`lineChannel` assigns it (stderr). -/
theorem worker_channel_discipline_witness :
    (Channel.stderr, Line.error "network timeout").1 =
      lineChannel (Channel.stderr, Line.error "network timeout").2 :=
  worker_channel_discipline sampleConfig failingScenario
    (Channel.stderr, Line.error "network timeout") (by decide)

/-- Claim C7: `remove(taskId)` deletes the task's entry when the backend call
succeeds; when the id is unknown the backend fails with `NotFound` and the
task list is unchanged; any backend failure leaves the task list
unchanged. -/
theorem remove_contract (s : DownloadState) (taskId : String) :
    ((taskId ∈ s.downloadTasks.map (fun t => t.id)) →
      (removeTask s taskId).1 = Except.ok () ∧
      findTask (removeTask s taskId).2 taskId = none) ∧
    ((¬ taskId ∈ s.downloadTasks.map (fun t => t.id)) →
      (removeTask s taskId).1 = Except.error RegistryError.NotFound ∧
      (removeTask s taskId).2.downloadTasks = s.downloadTasks) ∧
    (∀ msg, (removeDownloadTask s taskId (Except.error msg)).downloadTasks =
      s.downloadTasks) := by
  refine ⟨?_, ?_, fun msg => rfl⟩
  · intro hmem
    unfold removeTask backendRemove
    rw [if_pos hmem]
    refine ⟨rfl, ?_⟩
    unfold findTask removeDownloadTask
    dsimp only
    rw [List.find?_eq_none]
    intro t ht
    have hp := List.of_mem_filter ht
    simp only [decide_eq_true_eq] at hp ⊢
    exact hp
  · intro hmem
    unfold removeTask backendRemove
    rw [if_neg hmem]
    exact ⟨rfl, rfl⟩

/-- Claim C7 witness: removing the one known task succeeds and deletes it. -/
theorem remove_contract_witness :
    (removeTask sampleState "a").1 = Except.ok () ∧
    findTask (removeTask sampleState "a").2 "a" = none :=
  (remove_contract sampleState "a").1 (by decide)

theorem supervisorStep_nodup (s : SupervisorState) (op : SupervisorOp)
    (h : s.active.Nodup) : (supervisorStep s op).active.Nodup := by
  cases op with
  | start id =>
    simp only [supervisorStep]
    split
    · exact h
    · exact List.nodup_cons.2 ⟨by assumption, h⟩
  | retry id =>
    simp only [supervisorStep]
    split
    · exact h
    · exact List.nodup_cons.2 ⟨by assumption, h⟩
  | conclude id => exact h.erase id

/-- Claim C8: under any interleaving of start requests, retry re-admissions
and worker conclusions, at most one live worker process is associated with
any given task id at every instant. -/
theorem supervisor_mutual_exclusion (ops : List SupervisorOp) (id : String) :
    List.count id (supervisorRun ops).active ≤ 1 := by
  have h : ∀ s : SupervisorState, s.active.Nodup →
      (ops.foldl supervisorStep s).active.Nodup := by
    induction ops with
    | nil => exact fun s hs => hs
    | cons op ops ih => exact fun s hs => ih _ (supervisorStep_nodup s op hs)
  exact List.nodup_iff_count_le_one.1 (h { active := [] } List.nodup_nil) id

/-- Claim C9: when `resolveBuildId` throws, the download is not aborted: the
user-supplied version string is used verbatim as the build id, and on a
successful install the `VERSION` line echoes exactly that string (and the
`COMPLETED` line is still produced). -/
theorem resolve_failure_uses_version (cfg : WorkerConfig)
    (cbs : List (ℚ × ℚ)) (execPath : String) :
    effectiveBuildId cfg.version none = cfg.version ∧
    (Channel.stdout, Line.version cfg.version) ∈
      downloadBrowserTrace cfg
        { resolve := none, callbacks := cbs, result := Except.ok execPath } ∧
    (Channel.stdout, Line.completed (finalInstallPath cfg.version execPath)) ∈
      downloadBrowserTrace cfg
        { resolve := none, callbacks := cbs, result := Except.ok execPath } := by
  refine ⟨rfl, ?_, ?_⟩ <;>
    simp [downloadBrowserTrace, effectiveBuildId]

end ChromeTester
